import Mathlib

/-!
Verification of the mailvetter scoring engine and probe classifiers.

This file gives a shallow embedding, in Lean 4, of the pure decision logic of
the mailvetter repository:

* `CalculateRobustScore` (src/internal/validator/scoring.go) — the scoring
  engine mapping a `RiskAnalysis` record to `(score, breakdown, reachability,
  status)`.  Every score weight in the source is a multiple of `0.5` with
  magnitude far below `2^52`, so the `float64` score arithmetic is exact; we
  model it by integers in HALF-POINTS: the Go value `x` is represented by the
  integer `2 * x` (so `42.5` becomes `85`).  Go's `math.Round` (round half
  away from zero) composed with the halving back to points is `goRound`, and
  the `int` clamping is `clampScore` over `ℤ`.  The one `float64` field that
  is not score arithmetic, `EntropyScore`, is modelled by `ℚ` — it is only
  ever compared against `0.5`, and comparison of exact values is faithful to
  the IEEE comparison.
* `IsNoSuchUserError` (src/internal/lookup/smtp.go, shield-keyword revision) —
  the SMTP error classifier.  A Go `error` is modelled by `SmtpError`:
  `text` is `strings.ToLower(err.Error())` and `code` is the `textproto.Error`
  code recovered by `errors.As` when the error wraps one; `strings.Contains`
  is modelled by list infix on the character lists.
* the ghost-probe classification tail of `runSmtpProbes`
  (src/internal/validator/logic.go) — a pure function of the two final probe
  outcomes once the bounded retry loop has finished.
* the response handling of `CheckGoogleCalendar`
  (src/internal/lookup/probes.go) — a pure function of the HTTP outcome
  (`none` models a request/transport error).
* the round-robin proxy `Manager.Next` (src/internal/proxy/manager.go) —
  the `uint64` counter is modelled by a natural number kept below `2 ^ 64`,
  with the atomic increment and the `n - 1` wraparound made explicit.
-/

namespace Mailvetter

/-- The five terminal verification statuses of `models.VerificationStatus`. -/
inductive VerificationStatus where
  | valid
  | invalid
  | risky
  | catchAll
  | unknown
deriving DecidableEq

/-- The reachability bands of `models.Reachability`. -/
inductive Reachability where
  | safe
  | risky
  | bad
  | unknown
deriving DecidableEq

/-- `models.RiskAnalysis`.  Go zero values are the field defaults.  `float64`
`EntropyScore` is modelled by `ℚ` (it is only ever compared against `0.5`). -/
structure RiskAnalysis where
  smtpStatus : ℤ := 0
  hasTeamsPresence : Bool := false
  hasGoogleCalendar : Bool := false
  hasSharePoint : Bool := false
  hasVRFY : Bool := false
  isCatchAll : Bool := false
  mxProvider : String := ""
  hasSaaSTokens : Bool := false
  hasAdobe : Bool := false
  hasGitHub : Bool := false
  hasGravatar : Bool := false
  breachCount : ℤ := 0
  isRoleAccount : Bool := false
  entropyScore : ℚ := 0
  isPostmasterBroken : Bool := false
  timingDeltaMs : ℤ := 0
  hasDMARC : Bool := false
  hasSPF : Bool := false
  isGreylisted : Bool := false
  domainAgeDays : ℤ := 0
  hasTLS13 : Bool := false
deriving DecidableEq

/-- Result quadruple of `CalculateRobustScore`.  The breakdown map is modelled
as an association list written in program order; `setKey` gives it Go map
assignment semantics (overwrite on key collision).  Breakdown values are in
half-points (the Go float `x` is stored as `2 * x`). -/
structure ScoreResult where
  score : ℤ
  breakdown : List (String × ℤ)
  reachability : Reachability
  status : VerificationStatus
deriving DecidableEq

/-- The mutable `(score, breakdown, status)` state threaded through the
phases of `CalculateRobustScore`.  `score` and breakdown values are in
half-points. -/
structure ScoreState where
  score : ℤ
  breakdown : List (String × ℤ)
  status : VerificationStatus
deriving DecidableEq

/-- Go map assignment `m[k] = v`: replace the binding if the key is present,
otherwise add it. -/
def setKey (m : List (String × ℤ)) (k : String) (v : ℤ) : List (String × ℤ) :=
  if m.any (fun p => p.1 == k) then
    m.map (fun p => if p.1 == k then (k, v) else p)
  else
    m ++ [(k, v)]

/-- Sum of the values of a breakdown map (in half-points). -/
def sumB (m : List (String × ℤ)) : ℤ :=
  (m.map Prod.snd).sum

/-- `score += v; breakdown[k] = v` — the idiom used for every adjustment in
`CalculateRobustScore`. -/
def addEntry (st : ScoreState) (k : String) (v : ℤ) : ScoreState :=
  { st with score := st.score + v, breakdown := setKey st.breakdown k v }

/-- One guarded adjustment: `if cond { score += v; breakdown[k] = v }`. -/
def condAdd (c : Bool) (st : ScoreState) (k : String) (v : ℤ) : ScoreState :=
  if c then addEntry st k v else st

/-- One two-way guarded adjustment:
`if c1 { … k1 … } else if c2 { … k2 … }`. -/
def condAdd2 (c1 : Bool) (k1 : String) (v1 : ℤ) (c2 : Bool) (k2 : String)
    (v2 : ℤ) (st : ScoreState) : ScoreState :=
  if c1 then addEntry st k1 v1 else if c2 then addEntry st k2 v2 else st

-- Weight constants from scoring.go, in half-points (twice the Go value).
def WeightTeams : ℤ := 30
def WeightSharePoint : ℤ := 120
def WeightCalendar : ℤ := 85
def WeightProofpoint : ℤ := 30
def WeightSalesforce : ℤ := 20
def WeightGitHub : ℤ := 24
def WeightGravatar : ℤ := 20
def WeightAdobe : ℤ := 37
def WeightBreach : ℤ := 90
def WeightVRFY : ℤ := 198
def WeightSPF : ℤ := 7
def WeightDMARC : ℤ := 9
def DomainAgeThresholdEstablished : ℤ := 365
def DomainAgeThresholdVetted : ℤ := 1825
def WeightDomainAgeEstablished : ℤ := 20
def WeightDomainAgeVetted : ℤ := 30

/-- The `0.5` threshold the source compares `EntropyScore` against. -/
def entropyThreshold : ℚ := ⟨1, 2, by decide, by decide⟩

-- Breakdown keys used by scoring.go.
def kBaseSmtpValid : String := "base_smtp_valid"
def kBaseHardBounce : String := "base_hard_bounce"
def kBaseCatchAll : String := "base_catch_all"
def kBaseUnknown : String := "base_unknown"
def kVrfyVerified : String := "p0_vrfy_verified"
def kCorrectionO365 : String := "correction_o365_false_positive"
def kPenaltyO365Unlicensed : String := "penalty_o365_unlicensed"
def kPenaltyO365Ghost : String := "penalty_o365_ghost"
def kTeamsIdentity : String := "p0_teams_identity"
def kSharePointLicense : String := "p0_sharepoint_license"
def kCalendar : String := "p0_calendar"
def kAdobe : String := "p2_adobe"
def kGitHub : String := "p2_github"
def kGravatar : String := "p2_gravatar"
def kHistoricalBreach : String := "p1_historical_breach"
def kEnterpriseSec : String := "p1_enterprise_sec"
def kSaasUsage : String := "p1_saas_usage"
def kSpf : String := "p2_spf"
def kDmarc : String := "p2_dmarc"
def kTimingStrong : String := "p2_timing_strong"
def kTimingWeak : String := "p2_timing_weak"
def kDomainAgeVetted : String := "p2_domain_age_vetted"
def kDomainAgeEstablished : String := "p2_domain_age_established"
def kHighEntropy : String := "penalty_high_entropy"
def kRoleAccount : String := "penalty_role_account"
def kNewDomain : String := "penalty_new_domain"
def kCatchallStrong : String := "resolution_catchall_strong"
def kCatchallMedium : String := "resolution_catchall_medium"
def kCatchallEmpty : String := "resolution_catchall_empty"
def kUnknownStrong : String := "resolution_unknown_strong"
def kUnknownMedium : String := "resolution_unknown_medium"

-- Provider strings compared against MxProvider.
def pOffice365 : String := "office365"
def pProofpoint : String := "proofpoint"
def pMimecast : String := "mimecast"
def pBarracuda : String := "barracuda"

/-- Phase 1 of `CalculateRobustScore` (base score).  `Sum.inl` is the
hard-bounce early return; `Sum.inr` is the state handed to the later phases. -/
def basePhase (a : RiskAnalysis) : ScoreResult ⊕ ScoreState :=
  if a.smtpStatus == 250 then
    .inr { score := 180, breakdown := [(kBaseSmtpValid, 180)], status := .valid }
  else if a.smtpStatus == 550 then
    .inl { score := 0, breakdown := [(kBaseHardBounce, 0)],
           reachability := .bad, status := .invalid }
  else if a.isCatchAll then
    .inr { score := 60, breakdown := [(kBaseCatchAll, 60)], status := .catchAll }
  else
    .inr { score := 40, breakdown := [(kBaseUnknown, 40)], status := .unknown }

/-- The guard of phase 3, equal to the `o365ZombieCorrected` flag on every
path that reaches phases 3-8. -/
def o365ZombieCond (a : RiskAnalysis) : Bool :=
  a.mxProvider == pOffice365 && a.smtpStatus == 250 && !a.hasSharePoint

/-- Phase 3: the O365 zombie correction. -/
def zombiePhase (a : RiskAnalysis) (st : ScoreState) : ScoreState :=
  if o365ZombieCond a then
    let st1 := addEntry st kCorrectionO365 (-120)
    let st2 :=
      if a.hasTeamsPresence then addEntry st1 kPenaltyO365Unlicensed (-40)
      else addEntry st1 kPenaltyO365Ghost (-60)
    { st2 with status := .catchAll }
  else st

/-- `hasAbsoluteProof` from phase 4. -/
def hasAbsoluteProof (a : RiskAnalysis) : Bool :=
  a.hasVRFY || decide (a.breachCount > 0) || a.hasGoogleCalendar ||
    decide (a.timingDeltaMs > 3000) || a.hasTeamsPresence || a.hasSharePoint

/-- `hasSoftProof` from phase 4. -/
def hasSoftProof (a : RiskAnalysis) : Bool :=
  a.hasGitHub || a.hasAdobe || a.hasGravatar

/-- `hasEnterpriseGateway` from phase 4. -/
def hasEnterpriseGateway (a : RiskAnalysis) : Bool :=
  a.mxProvider == pProofpoint || a.mxProvider == pMimecast ||
    a.mxProvider == pBarracuda

/-- `isEstablishedDomain` from phase 4. -/
def isEstablishedDomain (a : RiskAnalysis) : Bool :=
  decide (a.domainAgeDays ≥ DomainAgeThresholdEstablished)

/-- The breach-signal step of phase 4, including the status upgrade that is
blocked when the zombie correction fired. -/
def breachStep (a : RiskAnalysis) (st : ScoreState) : ScoreState :=
  if decide (a.breachCount > 0) then
    let boost : ℤ := if decide (a.breachCount > 5) then WeightBreach + 20 else WeightBreach
    let st1 := addEntry st kHistoricalBreach boost
    if st1.status == .catchAll && !o365ZombieCond a then
      { st1 with status := .valid }
    else st1
  else st

/-- Phase 4: additive proof signals, in source order. -/
def signalsPhase (a : RiskAnalysis) (st : ScoreState) : ScoreState :=
  let st1 := condAdd a.hasTeamsPresence st kTeamsIdentity WeightTeams
  let st2 := condAdd a.hasSharePoint st1 kSharePointLicense WeightSharePoint
  let st3 := condAdd a.hasGoogleCalendar st2 kCalendar WeightCalendar
  let st4 := condAdd a.hasAdobe st3 kAdobe WeightAdobe
  let st5 := condAdd a.hasGitHub st4 kGitHub WeightGitHub
  let st6 := condAdd a.hasGravatar st5 kGravatar WeightGravatar
  let st7 := breachStep a st6
  let st8 := condAdd (hasEnterpriseGateway a) st7 kEnterpriseSec WeightProofpoint
  let st9 := condAdd a.hasSaaSTokens st8 kSaasUsage WeightSalesforce
  let st10 := condAdd a.hasSPF st9 kSpf WeightSPF
  let st11 := condAdd a.hasDMARC st10 kDmarc WeightDMARC
  let st12 := condAdd2 (decide (a.timingDeltaMs > 3000)) kTimingStrong 100
    (decide (a.timingDeltaMs > 1500)) kTimingWeak 50 st11
  condAdd2 (decide (a.domainAgeDays ≥ DomainAgeThresholdVetted))
    kDomainAgeVetted WeightDomainAgeVetted
    (decide (a.domainAgeDays ≥ DomainAgeThresholdEstablished))
    kDomainAgeEstablished WeightDomainAgeEstablished st12

/-- Phase 5: penalties, applied only when no proof shields them. -/
def penaltiesPhase (a : RiskAnalysis) (st : ScoreState) : ScoreState :=
  if !hasAbsoluteProof a && !hasSoftProof a then
    let st1 := condAdd (decide (a.entropyScore > entropyThreshold)) st kHighEntropy (-40)
    let st2 := condAdd a.isRoleAccount st1 kRoleAccount (-20)
    condAdd (decide (a.domainAgeDays > 0) && decide (a.domainAgeDays < 30)) st2 kNewDomain (-100)
  else st

/-- Phase 6: catch-all resolution. -/
def catchAllPhase (a : RiskAnalysis) (st : ScoreState) : ScoreState :=
  if a.isCatchAll then
    if hasAbsoluteProof a then
      { addEntry st kCatchallStrong 100 with status := .valid }
    else if hasSoftProof a then
      addEntry st kCatchallMedium 50
    else
      let applyEmptyPenalty := !hasEnterpriseGateway a && !isEstablishedDomain a
      if applyEmptyPenalty then
        if a.mxProvider == pOffice365 then addEntry st kPenaltyO365Ghost (-60)
        else addEntry st kCatchallEmpty (-40)
      else st
  else st

/-- Phase 7: unknown-domain resolution. -/
def unknownPhase (a : RiskAnalysis) (st : ScoreState) : ScoreState :=
  if st.status == .unknown then
    if hasAbsoluteProof a then
      { addEntry st kUnknownStrong 100 with status := .valid }
    else if hasSoftProof a then
      addEntry st kUnknownMedium 50
    else st
  else st

/-- Go's `math.Round` (round half away from zero) followed by the exact
`int(...)` conversion, on a score given in half-points: `goRound n` is the
rounding of `n / 2`.  All divisions below are of even integers, so they are
independent of the division convention. -/
def goRound (n : ℤ) : ℤ :=
  if n % 2 == 0 then n / 2
  else if n > 0 then (n + 1) / 2
  else (n - 1) / 2

/-- The two sequential clamps of phase 8: first to `≤ 99`, then to `≥ 0`. -/
def clampScore (n : ℤ) : ℤ :=
  let n1 := if n > 99 then 99 else n
  if n1 < 0 then 0 else n1

/-- The reachability banding of phase 8. -/
def bandReachability (n : ℤ) : Reachability :=
  if n ≥ 90 then .safe else if n ≥ 60 then .risky else .bad

/-- Phase 8: clamp, band, return. -/
def clampBandPhase (st : ScoreState) : ScoreResult :=
  { score := clampScore (goRound st.score),
    breakdown := st.breakdown,
    reachability := bandReachability (clampScore (goRound st.score)),
    status := st.status }

/-- `CalculateRobustScore` from src/internal/validator/scoring.go: the base
phase with its hard-bounce early return, the VRFY early return, then the
straight-line phases 3-8. -/
def CalculateRobustScore (a : RiskAnalysis) : ScoreResult :=
  match basePhase a with
  | .inl r => r
  | .inr st0 =>
    if a.hasVRFY then
      { score := 99, breakdown := [(kVrfyVerified, 198)],
        reachability := .safe, status := .valid }
    else
      clampBandPhase
        (unknownPhase a (catchAllPhase a (penaltiesPhase a
          (signalsPhase a (zombiePhase a st0)))))

/-! ### SMTP error classification (src/internal/lookup/smtp.go) -/

/-- A Go `error` as seen by the SMTP classifiers: `text` is
`strings.ToLower(err.Error())`, `code` is the `textproto.Error` response code
recovered by `errors.As` when the error wraps one.  A Go `nil` error is
`Option.none` at the use sites. -/
structure SmtpError where
  text : String
  code : Option ℕ
deriving DecidableEq

/-- `strings.Contains s sub` — the texts involved are ASCII, so the byte-level
Go check coincides with character-list infix. -/
def strContains (s sub : String) : Bool :=
  decide (sub.toList <:+: s.toList)

/-- The shield ("block") keywords of `IsNoSuchUserError`, checked first. -/
def blockKeywords : List String :=
  ["spam", "block", "banned", "blacklisted", "ip", "policy",
   "relay", "access denied", "rejected by network", "unauthenticated",
   "sender", "reputation", "spf", "dmarc", "dkim", "quota",
   "rate limit", "temporarily", "reverse dns", "ptr", "helo",
   "spamhaus", "barracuda", "sorbs", "client host rejected",
   "not permitted", "connection refused", "timeout", "greylist"]

/-- The missing-user keywords of `IsNoSuchUserError`. -/
def noUserKeywords : List String :=
  ["does not exist", "user unknown", "no such user",
   "recipient rejected", "not found", "invalid mailbox",
   "not a valid mailbox", "mailbox unavailable", "unrouteable address",
   "no mailbox here", "unknown user", "bad destination",
   "address rejected"]

def enh511 : String := "5.1.1"
def enh510 : String := "5.1.0"

/-- `IsNoSuchUserError` (src/internal/lookup/smtp.go:375-426): nil check,
shield keywords first, then the enhanced codes `5.1.1`/`5.1.0`, then the
missing-user keywords, then the structured `550`/`551` response code. -/
def IsNoSuchUserError : Option SmtpError → Bool
  | none => false
  | some e =>
    if blockKeywords.any (fun kw => strContains e.text kw) then false
    else if strContains e.text enh511 || strContains e.text enh510 then true
    else if noUserKeywords.any (fun kw => strContains e.text kw) then true
    else
      match e.code with
      | some c => c == 550 || c == 551
      | none => false

/-! ### Ghost-probe classification (src/internal/validator/logic.go) -/

/-- The outcome of one `lookup.CheckSMTP` call: `(accepted, elapsed, err)`.
`timeNs` is the elapsed `time.Duration` in nanoseconds. -/
structure SmtpProbeResult where
  valid : Bool
  timeNs : ℕ
  err : Option SmtpError
deriving DecidableEq

/-- `!valid && err != nil && !lookup.IsNoSuchUserError(err)` — the transient
classification computed for each probe in `runSmtpProbes`. -/
def transientFailure (r : SmtpProbeResult) : Bool :=
  !r.valid && r.err.isSome && !IsNoSuchUserError r.err

/-- The classification tail of `runSmtpProbes`
(src/internal/validator/logic.go:361-388), a pure function of the two final
probe outcomes once the bounded retry loop has finished: the timing delta, the
still-transient early return, and the `(status, delta, isCatchAll)` decision.
Result components: `(smtp_status, timing_delta_ms, is_catch_all)`. -/
def runSmtpProbes (target ghost : SmtpProbeResult) : ℤ × ℤ × Bool :=
  let delta : ℤ :=
    if ghost.timeNs > 0 && target.timeNs > 0 then
      (((ghost.timeNs / 1000000 : ℕ) : ℤ) - ((target.timeNs / 1000000 : ℕ) : ℤ)).natAbs
    else 0
  if transientFailure target || transientFailure ghost then (0, 0, false)
  else
    let ghostHardBounced := !ghost.valid && IsNoSuchUserError ghost.err
    if ghostHardBounced && target.valid then (250, delta, false)
    else if !target.valid && IsNoSuchUserError target.err then (550, delta, false)
    else if target.valid then (0, delta, true)
    else (0, delta, false)

/-! ### Google Calendar probe (src/internal/lookup/probes.go) -/

/-- The response handling of `CheckGoogleCalendar`
(src/internal/lookup/probes.go:398-412): the function takes only the email —
there is no MX-provider guard — and classifies the HTTP outcome.  `none`
models a request-build or transport error (the early `return false` paths);
`some c` models a response with status code `c`. -/
def CheckGoogleCalendar (resp : Option ℤ) : Bool :=
  match resp with
  | none => false
  | some code => code == 401 || code == 200

/-! ### Round-robin proxy manager (src/internal/proxy/manager.go) -/

/-- `2 ^ 64`, the modulus of the Go `uint64` counter. -/
def uint64Size : ℕ := 2 ^ 64

/-- `proxy.Manager`: the parsed proxy URLs and the atomic `uint64` counter,
kept below `uint64Size`.  `Init` leaves the counter at `0`. -/
structure Manager where
  proxies : List String
  counter : ℕ
deriving DecidableEq

/-- `Manager.Next`: nil/empty guard, atomic wrapping increment, then the
`(n-1) % len` round-robin index (the `n - 1` is `uint64` subtraction, hence
the `+ (uint64Size - 1)` wraparound). -/
def Manager.next (m : Manager) : Option String × Manager :=
  if m.proxies.length == 0 then (none, m)
  else
    let n := (m.counter + 1) % uint64Size
    let idx := ((n + (uint64Size - 1)) % uint64Size) % m.proxies.length
    (m.proxies.get? idx, { m with counter := n })

/-- The outputs of `M` successive sequential `Next()` calls. -/
def runNext (m : Manager) : ℕ → List (Option String)
  | 0 => []
  | Nat.succ k =>
    let r := m.next
    r.1 :: runNext r.2 k

/-! ### Clamp-and-band helper lemmas -/

theorem clampScore_nonneg (n : ℤ) : 0 ≤ clampScore n := by
  unfold clampScore
  dsimp only
  split_ifs <;> omega

theorem clampScore_le (n : ℤ) : clampScore n ≤ 99 := by
  unfold clampScore
  dsimp only
  split_ifs <;> omega

theorem bandReachability_safe_iff (n : ℤ) :
    bandReachability n = .safe ↔ 90 ≤ n := by
  unfold bandReachability
  split_ifs <;> simp_all

theorem bandReachability_risky_iff (n : ℤ) :
    bandReachability n = .risky ↔ 60 ≤ n ∧ n < 90 := by
  unfold bandReachability
  split_ifs <;> simp_all

theorem bandReachability_bad_iff (n : ℤ) :
    bandReachability n = .bad ↔ n < 60 := by
  unfold bandReachability
  split_ifs <;> simp_all
  all_goals omega

/-- The conjunction of the C1 properties, for one result record. -/
def ScoreResult.wellBanded (r : ScoreResult) : Prop :=
  0 ≤ r.score ∧ r.score ≤ 99 ∧
    (r.reachability = .safe ↔ 90 ≤ r.score) ∧
    (r.reachability = .risky ↔ 60 ≤ r.score ∧ r.score < 90) ∧
    (r.reachability = .bad ↔ r.score < 60)

theorem clampBandPhase_wellBanded (st : ScoreState) :
    (clampBandPhase st).wellBanded := by
  unfold clampBandPhase ScoreResult.wellBanded
  refine ⟨clampScore_nonneg _, clampScore_le _, ?_, ?_, ?_⟩
  · exact bandReachability_safe_iff _
  · exact bandReachability_risky_iff _
  · exact bandReachability_bad_iff _

/-- C1: for every `RiskAnalysis` input, `CalculateRobustScore` returns a score
in `[0, 99]`, and the returned reachability is `safe` iff the score is `≥ 90`,
`risky` iff it is in `[60, 90)`, and `bad` otherwise — on every return path,
including the 550 hard-bounce and VRFY short-circuits. -/
theorem calculateRobustScore_score_bounds_and_bands (a : RiskAnalysis) :
    (CalculateRobustScore a).wellBanded := by
  unfold CalculateRobustScore
  rcases hb : basePhase a with r0 | st0
  · have hr0 : r0 = ScoreResult.mk 0 [(kBaseHardBounce, 0)]
        Reachability.bad VerificationStatus.invalid := by
      unfold basePhase at hb
      split_ifs at hb
      all_goals simp_all
    subst hr0
    dsimp only
    unfold ScoreResult.wellBanded
    decide
  · dsimp only
    by_cases hv : a.hasVRFY = true
    · rw [if_pos hv]
      unfold ScoreResult.wellBanded
      decide
    · rw [if_neg hv]
      exact clampBandPhase_wellBanded _

/-- C2: for every input with `smtp_status == 550`, `CalculateRobustScore`
returns exactly score 0, status `invalid`, reachability `bad`, regardless of
every other field. -/
theorem calculateRobustScore_hard_bounce (a : RiskAnalysis)
    (h : a.smtpStatus = 550) :
    (CalculateRobustScore a).score = 0 ∧
      (CalculateRobustScore a).status = .invalid ∧
      (CalculateRobustScore a).reachability = .bad := by
  unfold CalculateRobustScore basePhase
  simp [h]

/-- Witness for C2 at a concrete input with many other fields set. -/
theorem calculateRobustScore_hard_bounce_witness :
    (CalculateRobustScore
        { smtpStatus := 550, isPostmasterBroken := true, isCatchAll := true,
          mxProvider := pOffice365, breachCount := 7, hasGitHub := true }).score = 0 ∧
      (CalculateRobustScore
        { smtpStatus := 550, isPostmasterBroken := true, isCatchAll := true,
          mxProvider := pOffice365, breachCount := 7, hasGitHub := true }).status = .invalid ∧
      (CalculateRobustScore
        { smtpStatus := 550, isPostmasterBroken := true, isCatchAll := true,
          mxProvider := pOffice365, breachCount := 7, hasGitHub := true }).reachability = .bad :=
  calculateRobustScore_hard_bounce
    { smtpStatus := 550, isPostmasterBroken := true, isCatchAll := true,
      mxProvider := pOffice365, breachCount := 7, hasGitHub := true } (by decide)

/-- Counterexample to C3 as stated: on an input with `has_vrfy = true` but
`smtp_status = 550`, the hard-bounce branch returns first, so the result is
`(0, invalid, bad)`, not `(99, valid, safe)`. -/
theorem vrfy_hard_bounce_counterexample :
    ({ hasVRFY := true, smtpStatus := 550 } : RiskAnalysis).hasVRFY = true ∧
      (CalculateRobustScore { hasVRFY := true, smtpStatus := 550 }).score = 0 ∧
      (CalculateRobustScore { hasVRFY := true, smtpStatus := 550 }).status = .invalid ∧
      (CalculateRobustScore { hasVRFY := true, smtpStatus := 550 }).reachability = .bad := by
  decide

/-- C3 (amended): for every input with `has_vrfy == true` and
`smtp_status ≠ 550`, `CalculateRobustScore` returns exactly score 99, status
`valid`, reachability `safe`, regardless of every other field. -/
theorem calculateRobustScore_vrfy_golden_ticket (a : RiskAnalysis)
    (hv : a.hasVRFY = true) (h550 : a.smtpStatus ≠ 550) :
    (CalculateRobustScore a).score = 99 ∧
      (CalculateRobustScore a).status = .valid ∧
      (CalculateRobustScore a).reachability = .safe := by
  unfold CalculateRobustScore basePhase
  split_ifs with h1 h2 h3 <;> simp_all

/-- Witness for the amended C3 at a concrete input. -/
theorem calculateRobustScore_vrfy_golden_ticket_witness :
    (CalculateRobustScore
        { hasVRFY := true, smtpStatus := 250, mxProvider := pOffice365,
          isCatchAll := true }).score = 99 ∧
      (CalculateRobustScore
        { hasVRFY := true, smtpStatus := 250, mxProvider := pOffice365,
          isCatchAll := true }).status = .valid ∧
      (CalculateRobustScore
        { hasVRFY := true, smtpStatus := 250, mxProvider := pOffice365,
          isCatchAll := true }).reachability = .safe :=
  calculateRobustScore_vrfy_golden_ticket
    { hasVRFY := true, smtpStatus := 250, mxProvider := pOffice365,
      isCatchAll := true } (by decide) (by decide)

/-! ### Status tracking through the phases -/

theorem addEntry_status (st : ScoreState) (k : String) (v : ℤ) :
    (addEntry st k v).status = st.status := rfl

theorem condAdd_status (c : Bool) (st : ScoreState) (k : String) (v : ℤ) :
    (condAdd c st k v).status = st.status := by
  unfold condAdd
  split_ifs <;> rfl

theorem condAdd2_status (c1 : Bool) (k1 : String) (v1 : ℤ) (c2 : Bool)
    (k2 : String) (v2 : ℤ) (st : ScoreState) :
    (condAdd2 c1 k1 v1 c2 k2 v2 st).status = st.status := by
  unfold condAdd2
  split_ifs <;> rfl

theorem clampBandPhase_status (st : ScoreState) :
    (clampBandPhase st).status = st.status := rfl

theorem basePhase_inl (a : RiskAnalysis) (r0 : ScoreResult)
    (hb : basePhase a = .inl r0) :
    r0 = ScoreResult.mk 0 [(kBaseHardBounce, 0)]
      Reachability.bad VerificationStatus.invalid := by
  unfold basePhase at hb
  split_ifs at hb
  all_goals simp_all

theorem basePhase_inr_status (a : RiskAnalysis) (st0 : ScoreState)
    (hb : basePhase a = .inr st0) : st0.status ≠ .risky := by
  unfold basePhase at hb
  split_ifs at hb
  all_goals cases hb
  all_goals decide

theorem zombiePhase_status_fire (a : RiskAnalysis) (st : ScoreState)
    (hz : o365ZombieCond a = true) :
    (zombiePhase a st).status = .catchAll := by
  unfold zombiePhase
  rw [if_pos hz]

theorem zombiePhase_status_ne_risky (a : RiskAnalysis) (st : ScoreState)
    (h : st.status ≠ .risky) : (zombiePhase a st).status ≠ .risky := by
  unfold zombiePhase
  split_ifs <;> simp_all

theorem breachStep_status_zombie (a : RiskAnalysis) (st : ScoreState)
    (hz : o365ZombieCond a = true) :
    (breachStep a st).status = st.status := by
  unfold breachStep
  dsimp only
  split_ifs <;> simp_all [addEntry_status]

theorem breachStep_status_ne_risky (a : RiskAnalysis) (st : ScoreState)
    (h : st.status ≠ .risky) : (breachStep a st).status ≠ .risky := by
  unfold breachStep
  dsimp only
  split_ifs <;> simp_all [addEntry_status]

theorem signalsPhase_status_zombie (a : RiskAnalysis) (st : ScoreState)
    (hz : o365ZombieCond a = true) :
    (signalsPhase a st).status = st.status := by
  unfold signalsPhase
  dsimp only
  simp only [condAdd_status, condAdd2_status]
  rw [breachStep_status_zombie a _ hz]
  simp only [condAdd_status]

theorem signalsPhase_status_ne_risky (a : RiskAnalysis) (st : ScoreState)
    (h : st.status ≠ .risky) : (signalsPhase a st).status ≠ .risky := by
  unfold signalsPhase
  dsimp only
  simp only [condAdd_status, condAdd2_status]
  refine breachStep_status_ne_risky a _ ?_
  simp only [condAdd_status]
  exact h

theorem penaltiesPhase_status (a : RiskAnalysis) (st : ScoreState) :
    (penaltiesPhase a st).status = st.status := by
  unfold penaltiesPhase
  dsimp only
  split_ifs <;> simp only [condAdd_status]

theorem catchAllPhase_status_noStrong (a : RiskAnalysis) (st : ScoreState)
    (hca : ¬(a.isCatchAll = true ∧ hasAbsoluteProof a = true)) :
    (catchAllPhase a st).status = st.status := by
  unfold catchAllPhase
  dsimp only
  split_ifs <;> simp_all [addEntry_status]

theorem catchAllPhase_status_ne_risky (a : RiskAnalysis) (st : ScoreState)
    (h : st.status ≠ .risky) : (catchAllPhase a st).status ≠ .risky := by
  unfold catchAllPhase
  dsimp only
  split_ifs <;> simp_all [addEntry_status]

theorem unknownPhase_status_ne_unknown (a : RiskAnalysis) (st : ScoreState)
    (h : st.status ≠ .unknown) : (unknownPhase a st).status = st.status := by
  unfold unknownPhase
  rw [if_neg]
  simp [h]

theorem unknownPhase_status_ne_risky (a : RiskAnalysis) (st : ScoreState)
    (h : st.status ≠ .risky) : (unknownPhase a st).status ≠ .risky := by
  unfold unknownPhase
  split_ifs <;> simp_all [addEntry_status]

/-- Catch-all input with soft proof only (scoring_test.go, "Soft Proof
Shields Penalties"). -/
def exSoftCatchall : RiskAnalysis :=
  { isCatchAll := true, mxProvider := pOffice365, hasGitHub := true,
    domainAgeDays := 5 }

/-- Counterexample to C5 as stated: on a catch-all input with soft proof the
scorer returns score 67 with status still `catch_all` (the zombie correction
did not fire — `smtp_status` is 0 — yet no post-pass upgrades the status to
`risky`). -/
theorem catchall_high_score_counterexample :
    o365ZombieCond exSoftCatchall = false ∧
      (CalculateRobustScore exSoftCatchall).score = 67 ∧
      67 ≥ 60 ∧
      (CalculateRobustScore exSoftCatchall).status = .catchAll := by
  decide

/-- C5 (amended): `CalculateRobustScore` contains no risky post-pass at all —
the returned status is never `risky`; in particular a catch-all result keeps
status `catch_all` even when the final score is `≥ 60`. -/
theorem calculateRobustScore_never_status_risky (a : RiskAnalysis) :
    (CalculateRobustScore a).status ≠ .risky := by
  unfold CalculateRobustScore
  rcases hb : basePhase a with r0 | st0
  · rw [basePhase_inl a r0 hb]
    dsimp only
    decide
  · dsimp only
    by_cases hv : a.hasVRFY = true
    · rw [if_pos hv]
      decide
    · rw [if_neg hv]
      rw [clampBandPhase_status]
      apply unknownPhase_status_ne_risky
      apply catchAllPhase_status_ne_risky
      rw [penaltiesPhase_status]
      apply signalsPhase_status_ne_risky
      apply zombiePhase_status_ne_risky
      exact basePhase_inr_status a st0 hb

/-- Zombie-corrected input that also carries `is_catch_all` and Teams
presence. -/
def exZombieCatchall : RiskAnalysis :=
  { smtpStatus := 250, mxProvider := pOffice365, isCatchAll := true,
    hasTeamsPresence := true }

/-- Counterexample to C4 as stated: the zombie correction fires (office365,
SMTP 250, no SharePoint, no VRFY), yet because `is_catch_all` is also set and
Teams presence is absolute proof, the catch-all resolution phase upgrades the
latched `catch_all` status back to `valid`. -/
theorem zombie_catchall_upgrade_counterexample :
    o365ZombieCond exZombieCatchall = true ∧
      exZombieCatchall.hasVRFY = false ∧
      (CalculateRobustScore exZombieCatchall).status = .valid ∧
      (CalculateRobustScore exZombieCatchall).score = 75 := by
  decide

/-- C4 (amended): whenever the O365 zombie correction fires (`provider ==
office365`, `smtp_status == 250`, no SharePoint, no VRFY) and the catch-all
strong resolution does not apply (`¬(is_catch_all ∧ absolute proof)` — in
particular whenever `is_catch_all` is false, which is what the pipeline
produces together with `smtp_status == 250`), the returned status is never
`valid`: the breach upgrade is blocked by the latch and no other phase
upgrades the status. -/
theorem zombie_correction_status_never_valid (a : RiskAnalysis)
    (hz : o365ZombieCond a = true) (hv : a.hasVRFY = false)
    (hca : ¬(a.isCatchAll = true ∧ hasAbsoluteProof a = true)) :
    (CalculateRobustScore a).status ≠ .valid := by
  have h250 : (a.smtpStatus == 250) = true := by
    unfold o365ZombieCond at hz
    rw [Bool.and_eq_true, Bool.and_eq_true] at hz
    exact hz.1.2
  unfold CalculateRobustScore basePhase
  rw [if_pos h250]
  dsimp only
  rw [if_neg (by simp [hv])]
  rw [clampBandPhase_status]
  have s1 : (zombiePhase a (ScoreState.mk 180 [(kBaseSmtpValid, 180)]
      VerificationStatus.valid)).status = .catchAll :=
    zombiePhase_status_fire a _ hz
  have s2 : (signalsPhase a (zombiePhase a (ScoreState.mk 180
      [(kBaseSmtpValid, 180)] VerificationStatus.valid))).status = .catchAll := by
    rw [signalsPhase_status_zombie a _ hz, s1]
  have s3 : (penaltiesPhase a (signalsPhase a (zombiePhase a (ScoreState.mk 180
      [(kBaseSmtpValid, 180)] VerificationStatus.valid)))).status = .catchAll := by
    rw [penaltiesPhase_status, s2]
  have s4 : (catchAllPhase a (penaltiesPhase a (signalsPhase a (zombiePhase a
      (ScoreState.mk 180 [(kBaseSmtpValid, 180)]
        VerificationStatus.valid))))).status = .catchAll := by
    rw [catchAllPhase_status_noStrong a _ hca, s3]
  rw [unknownPhase_status_ne_unknown a _ (by rw [s4]; decide), s4]
  decide

/-- Zombie-corrected input with breach history and no catch-all flag. -/
def exZombieBreach : RiskAnalysis :=
  { smtpStatus := 250, mxProvider := pOffice365, breachCount := 3 }

/-- Witness for the amended C4: a fired zombie correction with breach history
(but no catch-all flag) stays `catch_all`, never `valid`. -/
theorem zombie_correction_status_never_valid_witness :
    (CalculateRobustScore exZombieBreach).status ≠ .valid :=
  zombie_correction_status_never_valid exZombieBreach
    (by decide) (by decide) (by decide)

/-! ### C7: the SMTP no-such-user classifier -/

/-- An error whose lowered text is exactly the enhanced code `5.4.1`, with no
structured response code. -/
def exErr541 : SmtpError := { text := "5.4.1", code := none }

/-- Counterexample to C7 as stated: the classifier does not recognise the
enhanced code `5.4.1` — on an error text containing `5.4.1` (and no shield
keyword, no missing-user phrase, no structured 550/551 code) it returns
`false`, while the claim requires `true`. -/
theorem no_such_user_541_counterexample :
    strContains exErr541.text ("5.4.1") = true ∧
      (∀ kw ∈ blockKeywords, strContains exErr541.text kw = false) ∧
      IsNoSuchUserError (some exErr541) = false := by
  decide

/-- C7 (amended): `IsNoSuchUserError` returns true exactly when the error text
contains the enhanced code `5.1.1` or `5.1.0` (not `5.4.1`), or one of the
listed no-such-user phrases, or the structured response code is 550/551 —
except that shield keywords are checked first and win: any text containing a
shield keyword yields `false` regardless of code or other keywords. -/
theorem IsNoSuchUserError_characterization (e : SmtpError) :
    IsNoSuchUserError (some e) = true ↔
      (∀ kw ∈ blockKeywords, strContains e.text kw = false) ∧
        (strContains e.text enh511 = true ∨ strContains e.text enh510 = true ∨
          (∃ kw ∈ noUserKeywords, strContains e.text kw = true) ∨
          e.code = some 550 ∨ e.code = some 551) := by
  obtain ⟨t, c⟩ := e
  unfold IsNoSuchUserError
  cases c with
  | none =>
    dsimp only
    split_ifs <;> simp_all [List.any_eq_true]
    all_goals tauto
  | some n =>
    dsimp only
    split_ifs <;> simp_all [List.any_eq_true]
    all_goals tauto

/-! ### C8: the Google Calendar probe -/

/-- Counterexample to C8 as stated: a 401 response makes
`CheckGoogleCalendar` return `true`, while the claim requires it to be
positive only on status exactly 200.  (The claimed MX-provider guard does not
exist either: the source function takes only the email and always probes.) -/
theorem google_calendar_401_counterexample :
    CheckGoogleCalendar (some 401) = true := by
  decide

/-- C8 (amended): `CheckGoogleCalendar` has no MX guard — it always issues the
probe — and it returns true iff the HTTP response status is 401 or 200; any
request error yields false. -/
theorem CheckGoogleCalendar_positive_iff (resp : Option ℤ) :
    CheckGoogleCalendar resp = true ↔ resp = some 401 ∨ resp = some 200 := by
  rcases resp with _ | c
  · simp [CheckGoogleCalendar]
  · simp [CheckGoogleCalendar]

/-! ### C6: ghost-probe pair classification -/

/-- A no-such-user rejection error. -/
def exErrNoUser : SmtpError := { text := "user unknown", code := none }

/-- A transient (connection-level) error: not a no-such-user rejection. -/
def exErrTransient : SmtpError := { text := "connection failed", code := none }

/-- An accepted probe. -/
def exProbeAccept : SmtpProbeResult := { valid := true, timeNs := 0, err := none }

/-- A probe rejected with a no-such-user error. -/
def exProbeNoUser : SmtpProbeResult :=
  { valid := false, timeNs := 0, err := some exErrNoUser }

/-- A probe that failed transiently. -/
def exProbeTransient : SmtpProbeResult :=
  { valid := false, timeNs := 0, err := some exErrTransient }

/-- Counterexample to C6 as stated: when the target is rejected as
no-such-user but the ghost probe is still a transient failure, the code
returns `(0, false)` — the transient check runs first — while the claimed
table row requires `(550, false)` for a no-such-user target regardless of the
ghost. -/
theorem smtp_probe_ghost_transient_counterexample :
    exProbeNoUser.valid = false ∧
      IsNoSuchUserError exProbeNoUser.err = true ∧
      transientFailure exProbeTransient = true ∧
      runSmtpProbes exProbeNoUser exProbeTransient = (0, 0, false) := by
  decide

/-- C6 (amended): for fixed final outcomes of the two SMTP probes,
`runSmtpProbes` classifies the ghost-probe pair as: target accepted and ghost
rejected as no-such-user gives `(250, false)`; target rejected as no-such-user
gives `(550, false)` provided the ghost outcome is not a still-transient
failure; target and ghost both accepted gives `(0, true)`; a transient failure
still present after the bounded retry gives `(0, false)`. -/
theorem runSmtpProbes_classification (target ghost : SmtpProbeResult) :
    (target.valid = true → ghost.valid = false →
      IsNoSuchUserError ghost.err = true →
      (runSmtpProbes target ghost).1 = 250 ∧
        (runSmtpProbes target ghost).2.2 = false) ∧
    ((target.valid = false → IsNoSuchUserError target.err = true →
      transientFailure ghost = false →
      (runSmtpProbes target ghost).1 = 550 ∧
        (runSmtpProbes target ghost).2.2 = false) ∧
    ((target.valid = true → ghost.valid = true →
      (runSmtpProbes target ghost).1 = 0 ∧
        (runSmtpProbes target ghost).2.2 = true) ∧
    (transientFailure target = true ∨ transientFailure ghost = true →
      (runSmtpProbes target ghost).1 = 0 ∧
        (runSmtpProbes target ghost).2.2 = false))) := by
  unfold runSmtpProbes transientFailure
  refine ⟨?_, ?_, ?_, ?_⟩ <;> intros <;> split_ifs <;> simp_all

/-- Witness for the amended C6, exercising all four rows at concrete probe
outcomes. -/
theorem runSmtpProbes_classification_witness :
    ((runSmtpProbes exProbeAccept exProbeNoUser).1 = 250 ∧
      (runSmtpProbes exProbeAccept exProbeNoUser).2.2 = false) ∧
    ((runSmtpProbes exProbeNoUser exProbeAccept).1 = 550 ∧
      (runSmtpProbes exProbeNoUser exProbeAccept).2.2 = false) ∧
    ((runSmtpProbes exProbeAccept exProbeAccept).1 = 0 ∧
      (runSmtpProbes exProbeAccept exProbeAccept).2.2 = true) ∧
    ((runSmtpProbes exProbeTransient exProbeAccept).1 = 0 ∧
      (runSmtpProbes exProbeTransient exProbeAccept).2.2 = false) :=
  ⟨(runSmtpProbes_classification exProbeAccept exProbeNoUser).1
      (by decide) (by decide) (by decide),
    (runSmtpProbes_classification exProbeNoUser exProbeAccept).2.1
      (by decide) (by decide) (by decide),
    (runSmtpProbes_classification exProbeAccept exProbeAccept).2.2.1
      (by decide) (by decide),
    (runSmtpProbes_classification exProbeTransient exProbeAccept).2.2.2
      (Or.inl (by decide))⟩

/-! ### C9: round-robin proxy selection -/

theorem uint64Size_pos : 0 < uint64Size := by norm_num [uint64Size]

/-- The wrapped `(n - 1) % 2^64` of `Next` recovers the pre-increment counter
value. -/
theorem next_wrap (c : ℕ) (hc : c < uint64Size) :
    (((c + 1) % uint64Size) + (uint64Size - 1)) % uint64Size = c := by
  have h : uint64Size = 18446744073709551616 := by norm_num [uint64Size]
  rw [Nat.mod_add_mod]
  rw [h] at hc ⊢
  omega

theorem runNext_succ (m : Manager) (k : ℕ) :
    runNext m (k + 1) = (m.next).1 :: runNext (m.next).2 k := rfl

/-- Closed form of the `Next()` output trace: the `i`-th call from counter `c`
returns the proxy at index `((c + i) % 2^64) % N`. -/
theorem runNext_formula (ps : List String) (hps : ps ≠ []) :
    ∀ (M c : ℕ), c < uint64Size →
      runNext (Manager.mk ps c) M =
        (List.range M).map (fun i => ps.get? (((c + i) % uint64Size) % ps.length)) := by
  intro M
  induction M with
  | zero => intro c _; rfl
  | succ M ih =>
    intro c hc
    rw [runNext_succ]
    unfold Manager.next
    dsimp only
    rw [if_neg (by simp [hps])]
    dsimp only
    rw [ih ((c + 1) % uint64Size) (Nat.mod_lt _ uint64Size_pos)]
    rw [List.range_succ_eq_map, List.map_cons, List.map_map]
    refine congr_arg₂ List.cons ?_ ?_
    · rw [next_wrap c hc]
      show ps.get? (c % ps.length) = ps.get? ((c + 0) % uint64Size % ps.length)
      rw [Nat.add_zero, Nat.mod_eq_of_lt hc]
    · refine List.map_congr_left ?_
      intro i _
      show ps.get? ((((c + 1) % uint64Size) + i) % uint64Size % ps.length) =
        ps.get? ((c + (i + 1)) % uint64Size % ps.length)
      rw [Nat.mod_add_mod]
      have : c + 1 + i = c + (i + 1) := by omega
      rw [this]

/-- Exactly `q` of the numbers below `N * q` have residue `r` modulo `N`. -/
theorem countP_mod_range (N r : ℕ) (hr : r < N) :
    ∀ q : ℕ, (List.range (N * q)).countP (fun i => i % N == r) = q := by
  intro q
  induction q with
  | zero => simp
  | succ q ih =>
    rw [Nat.mul_succ, List.range_add, List.countP_append, ih, List.countP_map]
    have h1 : (List.range N).countP ((fun i => i % N == r) ∘ (fun x => N * q + x)) =
        (List.range N).countP (fun x => x == r) := by
      apply List.countP_congr
      intro x hx
      rw [List.mem_range] at hx
      simp [Function.comp, Nat.mul_add_mod, Nat.mod_eq_of_lt hx]
    rw [h1, ← List.count_eq_countP,
      List.count_eq_one_of_mem (List.nodup_range N) (List.mem_range.mpr hr)]

/-- At least `⌊M/N⌋` of the numbers below `M` have residue `r` modulo `N`. -/
theorem countP_mod_range_ge (N r M : ℕ) (hr : r < N) :
    M / N ≤ (List.range M).countP (fun i => i % N == r) := by
  have hM := Nat.div_add_mod M N
  calc M / N = (List.range (N * (M / N))).countP (fun i => i % N == r) :=
        (countP_mod_range N r hr _).symm
    _ ≤ (List.range M).countP (fun i => i % N == r) := by
        conv_rhs => rw [← hM, List.range_add, List.countP_append]
        omega

/-- C9 (amended): for every `Manager` configured with `N ≥ 1` proxy URLs and
every `M` with `N ≤ M ≤ 2^64`, a sequence of `M` successive sequential
`Next()` calls returns each of the `N` URLs at least `⌊M/N⌋` times.  The
upper bound on `M` is forced by the `uint64` counter: past `2^64` calls the
counter wraps and the rotation restarts mid-cycle. -/
theorem roundRobin_visits_floor (ps : List String) (N M : ℕ)
    (hN : ps.length = N) (hN1 : 1 ≤ N) (hNM : N ≤ M) (hM : M ≤ uint64Size) :
    ∀ j < N, M / N ≤ (runNext (Manager.mk ps 0) M).count (ps.get? j) := by
  subst hN
  intro j hj
  have hne : ps ≠ [] :=
    List.length_pos.mp (Nat.lt_of_le_of_lt (Nat.zero_le j) hj)
  rw [runNext_formula ps hne M 0 uint64Size_pos]
  rw [List.count_eq_countP, List.countP_map]
  refine le_trans (countP_mod_range_ge ps.length j M hj) ?_
  apply List.countP_mono_left
  intro i hi h
  rw [List.mem_range] at hi
  have hiU : i < uint64Size := lt_of_lt_of_le hi hM
  simp only [Function.comp]
  rw [Nat.zero_add, Nat.mod_eq_of_lt hiU]
  rw [show i % ps.length = j from by simpa using h]
  simp

/-- Three distinct proxy URLs. -/
def exProxies : List String := ["proxy-a", "proxy-b", "proxy-c"]

/-- Witness for the amended C9: over three proxies, 7 calls return the third
URL at least `⌊7/3⌋ = 2` times. -/
theorem roundRobin_visits_floor_witness :
    7 / 3 ≤ (runNext (Manager.mk exProxies 0) 7).count (exProxies.get? 2) :=
  roundRobin_visits_floor exProxies 3 7 (by decide) (by decide) (by decide)
    (by decide) 2 (by decide)

/-- One third of `2^64 - 1`. -/
def wrapThird : ℕ := 6148914691236517205

theorem exProxies_resid :
    ∀ r < 3, ((exProxies.get? r == exProxies.get? 2) = true ↔ (r == 2) = true) := by
  decide

/-- Counterexample to C9 as stated (for every `M ≥ N`): with `N = 3` proxies
and `M = 2^64 + 2` calls, the `uint64` counter wraps and the first two
post-wrap calls revisit the first two URLs, so the third URL is returned only
`(2^64 - 1)/3` times, which is less than `⌊M/3⌋ = (2^64 - 1)/3 + 1`. -/
theorem round_robin_wraparound_counterexample :
    exProxies.length = 3 ∧ 3 ≤ uint64Size + 2 ∧
      (runNext (Manager.mk exProxies 0) (uint64Size + 2)).count (exProxies.get? 2) <
        (uint64Size + 2) / 3 := by
  refine ⟨by decide, by norm_num [uint64Size], ?_⟩
  have hne : exProxies ≠ [] := by decide
  rw [runNext_formula exProxies hne (uint64Size + 2) 0 uint64Size_pos]
  rw [List.count_eq_countP, List.countP_map]
  have hq : List.countP ((fun x => x == exProxies.get? 2) ∘
      fun i => exProxies.get? ((0 + i) % uint64Size % exProxies.length))
      (List.range (uint64Size + 2)) =
      List.countP (fun i => i % uint64Size % 3 == 2) (List.range (uint64Size + 2)) := by
    apply List.countP_congr
    intro x _
    simp only [Function.comp]
    rw [Nat.zero_add]
    have hlen : exProxies.length = 3 := by decide
    rw [hlen]
    exact exProxies_resid (x % uint64Size % 3) (Nat.mod_lt _ (by norm_num))
  rw [hq]
  rw [List.range_add, List.countP_append, List.countP_map]
  have h2 : List.countP ((fun i => i % uint64Size % 3 == 2) ∘
      fun x => uint64Size + x) (List.range 2) = 0 := by decide
  have h1 : List.countP (fun i => i % uint64Size % 3 == 2) (List.range uint64Size) =
      wrapThird := by
    have hcg : List.countP (fun i => i % uint64Size % 3 == 2) (List.range uint64Size) =
        List.countP (fun i => i % 3 == 2) (List.range uint64Size) := by
      apply List.countP_congr
      intro x hx
      rw [List.mem_range] at hx
      rw [Nat.mod_eq_of_lt hx]
    rw [hcg]
    have hU3 : uint64Size = 3 * wrapThird + 1 := by decide
    rw [hU3, List.range_add, List.countP_append, List.countP_map,
      countP_mod_range 3 2 (by norm_num) wrapThird]
    have h0 : List.countP ((fun i => i % 3 == 2) ∘ fun x => 3 * wrapThird + x)
        (List.range 1) = 0 := by decide
    rw [h0]
    omega
  rw [h1, h2]
  have hdiv : (uint64Size + 2) / 3 = wrapThird + 1 := by decide
  omega

end Mailvetter

namespace Mailvetter

/-- The sum-tracking invariant: the breakdown sums to the running score, and
every key written so far lies in `L`. -/
def Inv (st : ScoreState) (L : List String) : Prop :=
  sumB st.breakdown = st.score ∧ ∀ p ∈ st.breakdown, p.1 ∈ L

theorem setKey_fresh (m : List (String × ℤ)) (k : String) (v : ℤ)
    (h : ∀ p ∈ m, p.1 ≠ k) : setKey m k v = m ++ [(k, v)] := by
  have h' : ¬ (m.any (fun p => p.1 == k) = true) := by
    simp only [List.any_eq_true, beq_iff_eq, not_exists]
    intro p
    rintro ⟨hp, he⟩
    exact h p hp he
  unfold setKey
  rw [if_neg h']

theorem sumB_append (m : List (String × ℤ)) (k : String) (v : ℤ) :
    sumB (m ++ [(k, v)]) = sumB m + v := by
  simp [sumB]

theorem inv_addEntry (k : String) (v : ℤ) {st : ScoreState} {L : List String}
    (h : Inv st L) (hk : k ∉ L) : Inv (addEntry st k v) (k :: L) := by
  obtain ⟨hs, hkeys⟩ := h
  have hfresh : ∀ p ∈ st.breakdown, p.1 ≠ k := fun p hp he => hk (he ▸ hkeys p hp)
  constructor
  · show sumB (setKey st.breakdown k v) = st.score + v
    rw [setKey_fresh _ _ _ hfresh, sumB_append, hs]
  · intro p hp
    replace hp : p ∈ setKey st.breakdown k v := hp
    rw [setKey_fresh _ _ _ hfresh] at hp
    rcases List.mem_append.mp hp with h | h
    · exact List.mem_cons_of_mem _ (hkeys p h)
    · simp only [List.mem_singleton] at h
      subst h
      simp

theorem inv_mono {st : ScoreState} {L L' : List String} (h : Inv st L)
    (hsub : L ⊆ L') : Inv st L' :=
  ⟨h.1, fun p hp => hsub (h.2 p hp)⟩

theorem inv_setStatus (s : VerificationStatus) {st : ScoreState}
    {L : List String} (h : Inv st L) : Inv { st with status := s } L :=
  ⟨h.1, h.2⟩

theorem not_mem_cons (k y : String) {L : List String} (hky : k ≠ y)
    (hkL : k ∉ L) : k ∉ y :: L := by
  intro hmem
  rcases List.mem_cons.mp hmem with h | h
  · exact hky h
  · exact hkL h

theorem not_mem_append (k : String) (ks : List String) {L : List String}
    (h1 : k ∉ ks) (h2 : k ∉ L) : k ∉ ks ++ L := by
  simp only [List.mem_append]
  rintro (h | h)
  · exact h1 h
  · exact h2 h

theorem cons_subset_keys (k : String) (ks : List String) {L : List String}
    (hk : k ∈ ks) : k :: L ⊆ ks ++ L :=
  List.cons_subset.mpr ⟨List.mem_append_left _ hk, List.subset_append_right _ _⟩

theorem inv_condAdd (c : Bool) (k : String) (v : ℤ) {st : ScoreState}
    {L : List String} (h : Inv st L) (hk : k ∉ L) :
    Inv (condAdd c st k v) (k :: L) := by
  unfold condAdd
  split_ifs
  · exact inv_addEntry k v h hk
  · exact inv_mono h (List.subset_cons_self _ _)

theorem inv_condAdd2 (c1 c2 : Bool) (k1 k2 : String) (v1 v2 : ℤ)
    {st : ScoreState} {L : List String} (h : Inv st L) (h1 : k1 ∉ L)
    (h2 : k2 ∉ L) : Inv (condAdd2 c1 k1 v1 c2 k2 v2 st) (k1 :: k2 :: L) := by
  unfold condAdd2
  split_ifs
  · exact inv_mono (inv_addEntry k1 v1 h h1)
      (List.cons_subset_cons _ (List.subset_cons_self _ _))
  · exact inv_mono (inv_addEntry k2 v2 h h2) (List.subset_cons_self _ _)
  · exact inv_mono h (List.Subset.trans (List.subset_cons_self _ _)
      (List.subset_cons_self _ _))

theorem basePhase_inr_inv (a : RiskAnalysis) (st0 : ScoreState)
    (hb : basePhase a = .inr st0) :
    Inv st0 [kBaseSmtpValid, kBaseCatchAll, kBaseUnknown] := by
  unfold basePhase at hb
  split_ifs at hb
  all_goals cases hb
  all_goals exact ⟨by decide, by decide⟩

theorem zombiePhase_inv_off (a : RiskAnalysis) (st : ScoreState)
    (hz : o365ZombieCond a = false) : zombiePhase a st = st := by
  unfold zombiePhase
  rw [if_neg]
  simp [hz]

theorem zombiePhase_inv_teams (a : RiskAnalysis) {st : ScoreState}
    {L : List String} (hz : o365ZombieCond a = true)
    (ht : a.hasTeamsPresence = true) (h : Inv st L)
    (h1 : kCorrectionO365 ∉ L) (h2 : kPenaltyO365Unlicensed ∉ L) :
    Inv (zombiePhase a st) ([kPenaltyO365Unlicensed, kCorrectionO365] ++ L) := by
  unfold zombiePhase
  rw [if_pos hz]
  dsimp only
  rw [if_pos ht]
  exact inv_setStatus _ (inv_addEntry kPenaltyO365Unlicensed (-40)
    (inv_addEntry kCorrectionO365 (-120) h h1)
    (not_mem_cons _ _ (by decide) h2))

theorem zombiePhase_inv_ghost (a : RiskAnalysis) {st : ScoreState}
    {L : List String} (hz : o365ZombieCond a = true)
    (ht : a.hasTeamsPresence = false) (h : Inv st L)
    (h1 : kCorrectionO365 ∉ L) (h2 : kPenaltyO365Ghost ∉ L) :
    Inv (zombiePhase a st) ([kPenaltyO365Ghost, kCorrectionO365] ++ L) := by
  unfold zombiePhase
  rw [if_pos hz]
  dsimp only
  rw [if_neg (by simp [ht])]
  exact inv_setStatus _ (inv_addEntry kPenaltyO365Ghost (-60)
    (inv_addEntry kCorrectionO365 (-120) h h1)
    (not_mem_cons _ _ (by decide) h2))

theorem breachStep_inv (a : RiskAnalysis) {st : ScoreState} {L : List String}
    (h : Inv st L) (hk : kHistoricalBreach ∉ L) :
    Inv (breachStep a st) (kHistoricalBreach :: L) := by
  unfold breachStep
  dsimp only
  split_ifs
  · exact inv_setStatus _ (inv_addEntry kHistoricalBreach _ h hk)
  · exact inv_addEntry kHistoricalBreach _ h hk
  · exact inv_setStatus _ (inv_addEntry kHistoricalBreach _ h hk)
  · exact inv_addEntry kHistoricalBreach _ h hk
  · exact inv_mono h (List.subset_cons_self _ _)

/-- The keys written by the signals phase, innermost write last. -/
def signalsKeys : List String :=
  [kDomainAgeVetted, kDomainAgeEstablished, kTimingStrong, kTimingWeak,
   kDmarc, kSpf, kSaasUsage, kEnterpriseSec, kHistoricalBreach,
   kGravatar, kGitHub, kAdobe, kCalendar, kSharePointLicense, kTeamsIdentity]

theorem signalsPhase_inv (a : RiskAnalysis) {st : ScoreState} {L : List String}
    (h : Inv st L) (hf : ∀ k ∈ signalsKeys, k ∉ L) :
    Inv (signalsPhase a st) (signalsKeys ++ L) := by
  unfold signalsPhase
  dsimp only
  have i1 := inv_condAdd a.hasTeamsPresence kTeamsIdentity WeightTeams h
    (hf kTeamsIdentity (by decide))
  have i2 := inv_condAdd a.hasSharePoint kSharePointLicense WeightSharePoint i1
    (not_mem_cons _ _ (by decide) (hf kSharePointLicense (by decide)))
  have i3 := inv_condAdd a.hasGoogleCalendar kCalendar WeightCalendar i2
    (not_mem_append kCalendar [kSharePointLicense, kTeamsIdentity]
      (by decide) (hf kCalendar (by decide)))
  have i4 := inv_condAdd a.hasAdobe kAdobe WeightAdobe i3
    (not_mem_append kAdobe [kCalendar, kSharePointLicense, kTeamsIdentity]
      (by decide) (hf kAdobe (by decide)))
  have i5 := inv_condAdd a.hasGitHub kGitHub WeightGitHub i4
    (not_mem_append kGitHub
      [kAdobe, kCalendar, kSharePointLicense, kTeamsIdentity]
      (by decide) (hf kGitHub (by decide)))
  have i6 := inv_condAdd a.hasGravatar kGravatar WeightGravatar i5
    (not_mem_append kGravatar
      [kGitHub, kAdobe, kCalendar, kSharePointLicense, kTeamsIdentity]
      (by decide) (hf kGravatar (by decide)))
  have i7 := breachStep_inv a i6
    (not_mem_append kHistoricalBreach
      [kGravatar, kGitHub, kAdobe, kCalendar, kSharePointLicense, kTeamsIdentity]
      (by decide) (hf kHistoricalBreach (by decide)))
  have i8 := inv_condAdd (hasEnterpriseGateway a) kEnterpriseSec WeightProofpoint i7
    (not_mem_append kEnterpriseSec
      [kHistoricalBreach, kGravatar, kGitHub, kAdobe, kCalendar,
        kSharePointLicense, kTeamsIdentity]
      (by decide) (hf kEnterpriseSec (by decide)))
  have i9 := inv_condAdd a.hasSaaSTokens kSaasUsage WeightSalesforce i8
    (not_mem_append kSaasUsage
      [kEnterpriseSec, kHistoricalBreach, kGravatar, kGitHub, kAdobe,
        kCalendar, kSharePointLicense, kTeamsIdentity]
      (by decide) (hf kSaasUsage (by decide)))
  have i10 := inv_condAdd a.hasSPF kSpf WeightSPF i9
    (not_mem_append kSpf
      [kSaasUsage, kEnterpriseSec, kHistoricalBreach, kGravatar, kGitHub,
        kAdobe, kCalendar, kSharePointLicense, kTeamsIdentity]
      (by decide) (hf kSpf (by decide)))
  have i11 := inv_condAdd a.hasDMARC kDmarc WeightDMARC i10
    (not_mem_append kDmarc
      [kSpf, kSaasUsage, kEnterpriseSec, kHistoricalBreach, kGravatar,
        kGitHub, kAdobe, kCalendar, kSharePointLicense, kTeamsIdentity]
      (by decide) (hf kDmarc (by decide)))
  have i12 := inv_condAdd2 (decide (a.timingDeltaMs > 3000))
    (decide (a.timingDeltaMs > 1500)) kTimingStrong kTimingWeak 100 50 i11
    (not_mem_append kTimingStrong
      [kDmarc, kSpf, kSaasUsage, kEnterpriseSec, kHistoricalBreach, kGravatar,
        kGitHub, kAdobe, kCalendar, kSharePointLicense, kTeamsIdentity]
      (by decide) (hf kTimingStrong (by decide)))
    (not_mem_append kTimingWeak
      [kDmarc, kSpf, kSaasUsage, kEnterpriseSec, kHistoricalBreach, kGravatar,
        kGitHub, kAdobe, kCalendar, kSharePointLicense, kTeamsIdentity]
      (by decide) (hf kTimingWeak (by decide)))
  exact inv_condAdd2 (decide (a.domainAgeDays ≥ DomainAgeThresholdVetted))
    (decide (a.domainAgeDays ≥ DomainAgeThresholdEstablished))
    kDomainAgeVetted kDomainAgeEstablished WeightDomainAgeVetted
    WeightDomainAgeEstablished i12
    (not_mem_append kDomainAgeVetted
      [kTimingStrong, kTimingWeak, kDmarc, kSpf, kSaasUsage, kEnterpriseSec,
        kHistoricalBreach, kGravatar, kGitHub, kAdobe, kCalendar,
        kSharePointLicense, kTeamsIdentity]
      (by decide) (hf kDomainAgeVetted (by decide)))
    (not_mem_append kDomainAgeEstablished
      [kTimingStrong, kTimingWeak, kDmarc, kSpf, kSaasUsage, kEnterpriseSec,
        kHistoricalBreach, kGravatar, kGitHub, kAdobe, kCalendar,
        kSharePointLicense, kTeamsIdentity]
      (by decide) (hf kDomainAgeEstablished (by decide)))

/-- The keys written by the penalties phase, innermost write last. -/
def penaltyKeys : List String := [kNewDomain, kRoleAccount, kHighEntropy]

theorem penaltiesPhase_inv (a : RiskAnalysis) {st : ScoreState}
    {L : List String} (h : Inv st L) (hf : ∀ k ∈ penaltyKeys, k ∉ L) :
    Inv (penaltiesPhase a st) (penaltyKeys ++ L) := by
  unfold penaltiesPhase
  dsimp only
  split_ifs
  · have i1 := inv_condAdd (decide (a.entropyScore > entropyThreshold))
      kHighEntropy (-40) h (hf kHighEntropy (by decide))
    have i2 := inv_condAdd a.isRoleAccount kRoleAccount (-20) i1
      (not_mem_cons _ _ (by decide) (hf kRoleAccount (by decide)))
    exact inv_condAdd _ kNewDomain (-100) i2
      (not_mem_append kNewDomain [kRoleAccount, kHighEntropy]
        (by decide) (hf kNewDomain (by decide)))
  · exact inv_mono h (List.subset_append_right _ _)

/-- The keys the catch-all resolution phase can write. -/
def catchAllKeys : List String :=
  [kCatchallStrong, kCatchallMedium, kPenaltyO365Ghost, kCatchallEmpty]

theorem catchAllPhase_inv (a : RiskAnalysis) {st : ScoreState}
    {L : List String} (h : Inv st L)
    (hf1 : kCatchallStrong ∉ L) (hf2 : kCatchallMedium ∉ L)
    (hf3 : kCatchallEmpty ∉ L)
    (hg : a.isCatchAll = true → hasAbsoluteProof a = false →
      hasSoftProof a = false →
      (!hasEnterpriseGateway a && !isEstablishedDomain a) = true →
      (a.mxProvider == pOffice365) = true → kPenaltyO365Ghost ∉ L) :
    Inv (catchAllPhase a st) (catchAllKeys ++ L) := by
  unfold catchAllPhase
  dsimp only
  split_ifs with h1 h2 h3 h4 h5
  · exact inv_mono (inv_setStatus _ (inv_addEntry kCatchallStrong 100 h hf1))
      (cons_subset_keys _ _ (by decide))
  · exact inv_mono (inv_addEntry kCatchallMedium 50 h hf2)
      (cons_subset_keys _ _ (by decide))
  · refine inv_mono (inv_addEntry kPenaltyO365Ghost (-60) h ?_)
      (cons_subset_keys _ _ (by decide))
    refine hg h1 ?_ ?_ h4 h5
    · rw [← Bool.not_eq_true]
      exact h2
    · rw [← Bool.not_eq_true]
      exact h3
  · exact inv_mono (inv_addEntry kCatchallEmpty (-40) h hf3)
      (cons_subset_keys _ _ (by decide))
  · exact inv_mono h (List.subset_append_right _ _)
  · exact inv_mono h (List.subset_append_right _ _)

/-- The keys the unknown-domain resolution phase can write. -/
def unknownKeys : List String := [kUnknownStrong, kUnknownMedium]

theorem unknownPhase_inv (a : RiskAnalysis) {st : ScoreState} {L : List String}
    (h : Inv st L) (hf1 : kUnknownStrong ∉ L) (hf2 : kUnknownMedium ∉ L) :
    Inv (unknownPhase a st) (unknownKeys ++ L) := by
  unfold unknownPhase
  split_ifs
  · exact inv_mono (inv_setStatus _ (inv_addEntry kUnknownStrong 100 h hf1))
      (cons_subset_keys _ _ (by decide))
  · exact inv_mono (inv_addEntry kUnknownMedium 50 h hf2)
      (cons_subset_keys _ _ (by decide))
  · exact inv_mono h (List.subset_append_right _ _)
  · exact inv_mono h (List.subset_append_right _ _)

end Mailvetter

namespace Mailvetter

theorem clampBand_sum (st : ScoreState) (hsum : sumB st.breakdown = st.score) :
    (clampBandPhase st).score =
      clampScore (goRound (sumB (clampBandPhase st).breakdown)) := by
  show clampScore (goRound st.score) = clampScore (goRound (sumB st.breakdown))
  rw [hsum]

/-- The one key collision: the zombie correction wrote `penalty_o365_ghost`
and the empty-catch-all resolution writes it again. -/
def doubleGhostCond (a : RiskAnalysis) : Bool :=
  (o365ZombieCond a && !a.hasTeamsPresence) &&
    (a.isCatchAll && !hasAbsoluteProof a && !hasSoftProof a &&
      (!hasEnterpriseGateway a && !isEstablishedDomain a) &&
      (a.mxProvider == pOffice365))

/-- C10 (amended): for every `RiskAnalysis` input on which the zombie ghost
penalty and the empty-catch-all O365 penalty do not both fire (the only key
collision), the score returned by `CalculateRobustScore` equals the rounding
of the sum of the returned breakdown values, clamped to `[0, 99]`: every
adjustment is recorded under a key distinct from all keys already present. -/
theorem score_eq_breakdown_sum (a : RiskAnalysis)
    (hdg : doubleGhostCond a = false) :
    (CalculateRobustScore a).score =
      clampScore (goRound (sumB (CalculateRobustScore a).breakdown)) := by
  unfold CalculateRobustScore
  rcases hb : basePhase a with r0 | st0
  · rw [basePhase_inl a r0 hb]
    dsimp only
    decide
  · dsimp only
    by_cases hv : a.hasVRFY = true
    · rw [if_pos hv]
      decide
    · rw [if_neg hv]
      have I0 := basePhase_inr_inv a st0 hb
      by_cases hz : o365ZombieCond a = true
      · by_cases ht : a.hasTeamsPresence = true
        · have I1 := zombiePhase_inv_teams a hz ht I0 (by decide) (by decide)
          have I2 := signalsPhase_inv a I1 (by decide)
          have I3 := penaltiesPhase_inv a I2 (by decide)
          have I4 := catchAllPhase_inv a I3 (by decide) (by decide) (by decide)
            (fun _ _ _ _ _ => by decide)
          have I5 := unknownPhase_inv a I4 (by decide) (by decide)
          exact clampBand_sum _ I5.1
        · have ht' : a.hasTeamsPresence = false := by
            rw [← Bool.not_eq_true]
            exact ht
          have I1 := zombiePhase_inv_ghost a hz ht' I0 (by decide) (by decide)
          have I2 := signalsPhase_inv a I1 (by decide)
          have I3 := penaltiesPhase_inv a I2 (by decide)
          have I4 := catchAllPhase_inv a I3 (by decide) (by decide) (by decide)
            (fun hca habs hsoft hwaive hoff => absurd
              (show doubleGhostCond a = true by
                simp [doubleGhostCond, hz, ht', hca, habs, hsoft, hwaive, hoff])
              (by simp [hdg]))
          have I5 := unknownPhase_inv a I4 (by decide) (by decide)
          exact clampBand_sum _ I5.1
      · have hz' : o365ZombieCond a = false := by
          rw [← Bool.not_eq_true]
          exact hz
        rw [zombiePhase_inv_off a st0 hz']
        have I2 := signalsPhase_inv a I0 (by decide)
        have I3 := penaltiesPhase_inv a I2 (by decide)
        have I4 := catchAllPhase_inv a I3 (by decide) (by decide) (by decide)
          (fun _ _ _ _ _ => by decide)
        have I5 := unknownPhase_inv a I4 (by decide) (by decide)
        exact clampBand_sum _ I5.1

/-- Input on which both the zombie correction (office365, 250, no SharePoint,
no Teams) and the empty-catch-all resolution write `penalty_o365_ghost`. -/
def exDoubleGhost : RiskAnalysis :=
  { smtpStatus := 250, mxProvider := pOffice365, isCatchAll := true,
    timingDeltaMs := 2000 }

/-- Counterexample to C10 as stated: on `exDoubleGhost` the key
`penalty_o365_ghost` is written by both the zombie-correction phase and the
catch-all-resolution phase, so the breakdown holds `-30` points once while
the score subtracted it twice: the returned score is 0 but the clamped
rounded breakdown sum is 25. -/
theorem breakdown_overwrite_counterexample :
    (CalculateRobustScore exDoubleGhost).score = 0 ∧
      clampScore (goRound (sumB (CalculateRobustScore exDoubleGhost).breakdown)) = 25 ∧
      (CalculateRobustScore exDoubleGhost).breakdown =
        [(kBaseSmtpValid, 180), (kCorrectionO365, -120),
         (kPenaltyO365Ghost, -60), (kTimingWeak, 50)] := by
  decide

/-- The same ghost zombie but without the catch-all flag: only one phase
writes `penalty_o365_ghost`. -/
def exGhostNoCatchall : RiskAnalysis :=
  { smtpStatus := 250, mxProvider := pOffice365, timingDeltaMs := 2000 }

/-- Witness for the amended C10 at a concrete input that exercises the zombie
ghost penalty (returned score 25, matching the breakdown sum). -/
theorem score_eq_breakdown_sum_witness :
    (CalculateRobustScore exGhostNoCatchall).score =
      clampScore (goRound (sumB (CalculateRobustScore exGhostNoCatchall).breakdown)) :=
  score_eq_breakdown_sum exGhostNoCatchall (by decide)

end Mailvetter
